import Mathlib

/-!
Shallow embedding of `WebToEpubComics.py`, a sequential manga downloader:
index-page metadata/chapter extraction, a page-follow image download loop,
and per-chapter EPUB packaging.  Network and filesystem effects are modelled
by explicit oracles:

* `site : String → Option Page` — a chapter-page GET; `none` models a
  `requests.exceptions.RequestException` (transport failure or
  `raise_for_status`), which the source catches.
* `fetchImg : String → Bool` — an image GET; `false` models a
  `RequestException`, which the inner `except` of `download_images` catches.
* `writeOk : String → Bool` — the `open(file_path, 'wb')`/`write` of an image
  file; `false` models an `OSError`, which NO `except` clause in the source
  matches (both handlers only catch `RequestException`), so it propagates:
  the embedding returns `Except.error "IOError"` for that path.
* `readBytes : String → Option Nat` — the `open(image_path, 'rb').read()` in
  `create_volume_epub`; `none` models the `Exception` caught at line 137.

The page-follow `while` loop has no cycle guard in the source, so the
embedding bounds it by an explicit `fuel` iteration count; each theorem
either supplies enough fuel for the page chain it describes or holds for
every fuel value.
-/

namespace WebToEpubComics

/-- The fixed site origin prepended to every relative link target
(the string interpolated at lines 60 and 101 of the source). -/
def origin : String := "https://www.baozimh.com"

/-- The character class of `re.sub(r'[<>:"/\\|?*]', '', title)` at line 161. -/
def isReserved (c : Char) : Bool :=
  c == '<' || c == '>' || c == ':' || c == '"' || c == '/' || c == '\\' ||
  c == '|' || c == '?' || c == '*'

/-- The ASCII whitespace matched by the regex class `\s` used in
`re.sub(r'\s+', '_', title)` at line 162 (space, tab, newline, carriage
return, vertical tab, form feed). -/
def isPySpace (c : Char) : Bool :=
  c == ' ' || c == '\t' || c == '\n' || c == '\r' || c == '\x0b' || c == '\x0c'

/-- One left-to-right pass of `re.sub(r'\s+', '_', ·)`: each maximal run of
whitespace characters is replaced by a single underscore.  The flag records
whether the previous character was part of a whitespace run. -/
def collapseWSAux : Bool → List Char → List Char
  | _, [] => []
  | prevSpace, c :: rest =>
    if isPySpace c then
      if prevSpace then collapseWSAux true rest
      else '_' :: collapseWSAux true rest
    else c :: collapseWSAux false rest

/-- The substitution `re.sub(r'\s+', '_', ·)` on a character list. -/
def collapseWS (l : List Char) : List Char := collapseWSAux false l

/-- Source function `slugify_filename` (lines 156-163): drop the reserved characters, then
collapse whitespace runs to single underscores. -/
def slugify_filename (title : String) : String :=
  ⟨collapseWS (title.data.filter (fun c => !isReserved c))⟩

/-- An `a.comics-chapters__item` element of the index page: its optional
`href` attribute and the text of its optional nested `span`. -/
structure ChapterElem where
  href : Option String
  spanText : Option String
deriving DecidableEq

/-- Source function `fetch_chapter_links_and_titles` (lines 47-64).  The argument is the
parsed index page, `none` standing for a fetch that failed with a
`RequestException` (caught at line 62, returning `[]`).  For each chapter
element the title is the nested span text or the sentinel `"未知章節"`, and
the pair is appended only when `if href:` holds — Python truthiness, so an
absent `href` AND an empty-string `href` are both skipped — the link target
being resolved against `origin`. -/
def fetch_chapter_links_and_titles : Option (List ChapterElem) → List (String × String)
  | none => []
  | some elems =>
    elems.filterMap (fun ch =>
      let title := ch.spanText.getD "未知章節"
      match ch.href with
      | none => none
      | some h => if h = "" then none else some (title, origin ++ h))

/-- An `img` element of a chapter page: its `src` and `data-src` attributes. -/
structure ImgElem where
  src : Option String
  dataSrc : Option String
deriving DecidableEq

/-- A fetched chapter page: its `img` elements in document order, and the
`href` of the `"點擊進入下一頁"` anchor when that anchor exists and has one. -/
structure Page where
  imgs : List ImgElem
  nextHref : Option String

/-- The list comprehension at lines 79-82: keep the elements that have a
`src` or a `data-src` attribute, preferring `data-src` when present. -/
def extractImageUrls (imgs : List ImgElem) : List String :=
  imgs.filterMap (fun i => i.dataSrc.orElse (fun _ => i.src))

/-- The format `f"{idx:03}"`: the decimal digits of `idx` left-padded with zeros to
width 3. -/
def pad3 (n : Nat) : String :=
  ⟨List.replicate (3 - (toString n).length) '0'⟩ ++ toString n

/-- The path `os.path.join(output_dir, f"{idx:03}.jpg")` at line 91 (POSIX join of a
directory without trailing slash). -/
def imageFilePath (output_dir : String) (idx : Nat) : String :=
  output_dir ++ "/" ++ pad3 idx ++ ".jpg"

/-- The inner `for idx, url in enumerate(image_urls, start=len(image_paths)+1)`
loop of `download_images` (lines 87-96).  `idx` advances with the position in
`image_urls` whether or not the fetch succeeds; a failed image fetch
(`fetchImg u = false`) raises `RequestException`, caught at line 95, so the
index is skipped; a failed file write raises an `OSError` that no handler
matches, hence `Except.error`.  Returns the `(index, source url)` pairs of
the files written, in write order — these are exactly the entries appended
to `image_paths`. -/
def downloadImgList (fetchImg writeOk : String → Bool) (output_dir : String) :
    List String → Nat → Except String (List (Nat × String))
  | [], _ => .ok []
  | u :: us, idx =>
    if fetchImg u then
      if writeOk (imageFilePath output_dir idx) then
        match downloadImgList fetchImg writeOk output_dir us (idx + 1) with
        | .error e => .error e
        | .ok ws => .ok ((idx, u) :: ws)
      else .error "IOError"
    else downloadImgList fetchImg writeOk output_dir us (idx + 1)

/-- The `while current_url:` loop of `download_images` (lines 72-106).
`acc` is the current `image_paths`, kept as `(index, source url)` pairs.  A
page fetch failure (`site url = none`) is caught at line 104: the loop stops
and the pages already collected are kept.  `fuel` bounds the number of page
iterations the model unfolds; exhausted fuel also returns the accumulator. -/
def downloadImagesLoop (site : String → Option Page) (fetchImg writeOk : String → Bool)
    (output_dir : String) : Nat → Option String → List (Nat × String) →
    Except String (List (Nat × String))
  | _, none, acc => .ok acc
  | 0, some _, acc => .ok acc
  | fuel + 1, some url, acc =>
    match site url with
    | none => .ok acc
    | some page =>
      match downloadImgList fetchImg writeOk output_dir (extractImageUrls page.imgs)
          (acc.length + 1) with
      | .error e => .error e
      | .ok ws =>
        downloadImagesLoop site fetchImg writeOk output_dir fuel
          (page.nextHref.map (fun h => origin ++ h)) (acc ++ ws)

/-- Source function `download_images` (lines 67-108): the local file paths written, in write
order, or the uncaught `OSError`. -/
def download_images (site : String → Option Page) (fetchImg writeOk : String → Bool)
    (output_dir chapter_url : String) (fuel : Nat) : Except String (List String) :=
  (downloadImagesLoop site fetchImg writeOk output_dir fuel (some chapter_url) []).map
    (fun ws => ws.map (fun w => imageFilePath output_dir w.1))

/-- The source urls of the files `download_images` writes, in write order:
the images the page-follow loop collects. -/
def collected_images (site : String → Option Page) (fetchImg writeOk : String → Bool)
    (output_dir chapter_url : String) (fuel : Nat) : Except String (List String) :=
  (downloadImagesLoop site fetchImg writeOk output_dir fuel (some chapter_url) []).map
    (fun ws => ws.map Prod.snd)

/-- The `os.path.basename` of a path: its final component. -/
def basename (p : String) : String := (p.splitOn "/").getLastD p

/-- The `<img .../>` tag built at line 121 of `create_volume_epub`. -/
def imgTag (base volume_title : String) : String :=
  "<img src=\"" ++ base ++ "\" alt=\"" ++ volume_title ++
    "\" style=\"max-width:100%;\"/>"

/-- The `content` accumulation loop at lines 119-122: one `<img>` tag plus a
`<br>` per input path, concatenated in input order, independent of whether
the file can be read. -/
def buildContent (volume_title : String) (image_paths : List String) : String :=
  image_paths.foldl (fun acc p => acc ++ (imgTag (basename p) volume_title ++ "<br>")) ""

/-- The embedded-resource loop at lines 127-138: each readable image file
becomes one `EpubItem` with `uid = file_name = basename` and media type
`image/jpeg`; an unreadable file (`readBytes p = none`, the `Exception`
caught at line 137) is logged and skipped.  Items are `(uid, content)`. -/
def embeddedItems (readBytes : String → Option Nat) (image_paths : List String) :
    List (String × Nat) :=
  image_paths.filterMap (fun p => (readBytes p).map (fun b => (basename p, b)))

/-- Source function `create_volume_epub` (lines 111-153), projected to the two parts the
claims are about: the single content document's body and the embedded image
resources. -/
def create_volume_epub (readBytes : String → Option Nat) (volume_title : String)
    (image_paths : List String) : String × List (String × Nat) :=
  (buildContent volume_title image_paths, embeddedItems readBytes image_paths)

/-- The path `os.path.join(output_dir, f"{manga_title}_{volume_title}.epub")` at
line 148: the archive path for one chapter. -/
def epub_file (output_dir manga_title volume_title : String) : String :=
  output_dir ++ "/" ++ manga_title ++ "_" ++ volume_title ++ ".epub"

/-- Lines 179-182 of `download_manga`: the per-chapter filesystem targets.
The temp image directory is
`os.path.join(OUTPUT_DIR, "temp_images", slugify_filename(title))`; the
archive is `create_volume_epub(manga_title, title, ...)` — the RAW `title`,
not `safe_title`, is what reaches the epub file name. -/
def chapter_paths (output_dir manga_title title : String) : String × String :=
  (output_dir ++ "/temp_images/" ++ slugify_filename title,
   epub_file output_dir manga_title title)

/-- The per-chapter `for title, chapter_url in chapters:` loop of
`download_manga` (lines 178-182).  Each chapter runs `download_images` and
then `create_volume_epub`; the loop body has no exception handler, so an
`Except.error` escaping `download_images` (an uncaught `OSError`) aborts the
whole loop.  On success returns the chapters' epub paths, in list order. -/
def process_chapters (site : String → Option Page) (fetchImg writeOk : String → Bool)
    (fuel : Nat) (output_dir manga_title : String) :
    List (String × String) → Except String (List String)
  | [] => .ok []
  | (title, chapter_url) :: rest =>
    match download_images site fetchImg writeOk
        (output_dir ++ "/temp_images/" ++ slugify_filename title) chapter_url fuel with
    | .error e => .error e
    | .ok _ =>
      match process_chapters site fetchImg writeOk fuel output_dir manga_title rest with
      | .error e => .error e
      | .ok outs => .ok (epub_file output_dir manga_title title :: outs)

/-- One attempted HTTP GET: the target url and whether the call went through
the shared `requests.Session`. -/
structure NetCall where
  url : String
  viaSession : Bool
deriving DecidableEq

/-- The GETs attempted by one run of `download_images`: the page GET at
line 74, then one image GET per extracted url at line 89 (attempted whether
or not it succeeds), then the next page when the loop continues.  All go
through the shared session. -/
def downloadImagesTrace (site : String → Option Page) : Nat → Option String → List NetCall
  | _, none => []
  | 0, some _ => []
  | fuel + 1, some url =>
    ⟨url, true⟩ ::
      match site url with
      | none => []
      | some page =>
        (extractImageUrls page.imgs).map (fun u => (⟨u, true⟩ : NetCall)) ++
          downloadImagesTrace site fuel (page.nextHref.map (fun h => origin ++ h))

/-- The GETs attempted by one run of `download_manga` (lines 166-182):
`fetch_manga_title`, `fetch_manga_author` and `fetch_chapter_links_and_titles`
each issue their own session-less `requests.get(index_url)` (lines 14, 32
and 50); only then is the `requests.Session` opened, and the chapter loop
runs every remaining call through it. -/
def downloadMangaTrace (index_url : String) (indexDoc : Option (List ChapterElem))
    (site : String → Option Page) (fuel : Nat) : List NetCall :=
  ⟨index_url, false⟩ :: ⟨index_url, false⟩ :: ⟨index_url, false⟩ ::
    ((fetch_chapter_links_and_titles indexDoc).map
      (fun ch => downloadImagesTrace site fuel (some ch.2))).flatten

/-! ### Lemmas about whitespace collapsing -/

/-- Every character of `collapseWSAux b l` is either the underscore inserted
for a whitespace run or a non-whitespace character of `l`. -/
theorem mem_collapseWSAux :
    ∀ (l : List Char) (b : Bool) (c : Char), c ∈ collapseWSAux b l →
      c = '_' ∨ (c ∈ l ∧ isPySpace c = false) := by
  intro l
  induction l with
  | nil => intro b c hc; simp [collapseWSAux] at hc
  | cons a rest ih =>
    intro b c hc
    by_cases ha : isPySpace a = true
    · rcases hb : b with _ | _
      · rw [collapseWSAux, if_pos ha, hb] at hc
        simp only [Bool.false_eq_true, if_false, List.mem_cons] at hc
        rcases hc with h | h
        · exact Or.inl h
        · rcases ih true c h with h' | ⟨hm, hs⟩
          · exact Or.inl h'
          · exact Or.inr ⟨List.mem_cons_of_mem _ hm, hs⟩
      · rw [collapseWSAux, if_pos ha, hb, if_pos rfl] at hc
        rcases ih true c hc with h' | ⟨hm, hs⟩
        · exact Or.inl h'
        · exact Or.inr ⟨List.mem_cons_of_mem _ hm, hs⟩
    · rw [collapseWSAux, if_neg ha] at hc
      rcases List.mem_cons.mp hc with h | h
      · subst h
        exact Or.inr ⟨List.mem_cons_self _ _, Bool.not_eq_true _ ▸ ha⟩
      · rcases ih false c h with h' | ⟨hm, hs⟩
        · exact Or.inl h'
        · exact Or.inr ⟨List.mem_cons_of_mem _ hm, hs⟩

/-- Collapsing whitespace is the identity on a list with no whitespace. -/
theorem collapseWSAux_eq_self :
    ∀ (l : List Char), (∀ c ∈ l, isPySpace c = false) → ∀ b, collapseWSAux b l = l := by
  intro l
  induction l with
  | nil => intro _ b; rfl
  | cons a rest ih =>
    intro h b
    have ha : isPySpace a = false := h a (List.mem_cons_self _ _)
    rw [collapseWSAux, if_neg (by simp [ha])]
    exact congrArg (a :: ·) (ih (fun c hc => h c (List.mem_cons_of_mem _ hc)) false)

/-- Every character of a sanitized title is non-reserved and non-whitespace. -/
theorem slugify_chars (t : String) (c : Char) (hc : c ∈ (slugify_filename t).data) :
    isReserved c = false ∧ isPySpace c = false := by
  have hc' : c ∈ collapseWSAux false (t.data.filter (fun c => !isReserved c)) := hc
  rcases mem_collapseWSAux _ _ _ hc' with h | ⟨hm, hs⟩
  · subst h; exact ⟨rfl, rfl⟩
  · have := (List.mem_filter.mp hm).2
    exact ⟨by simpa using this, hs⟩

/-- C8: `slugify_filename` removes every reserved character `<>:"/\|?*` and
every whitespace character (each run becoming a single underscore), and on
`"Ch 1: The/Beginning?"` it returns `"Ch_1_TheBeginning"`. -/
theorem slugify_removes_reserved_and_collapses_ws :
    (∀ t : String, ((slugify_filename t).data.all
      (fun c => !isReserved c && !isPySpace c)) = true) ∧
    slugify_filename "Ch 1: The/Beginning?" = "Ch_1_TheBeginning" := by
  constructor
  · intro t
    rw [List.all_eq_true]
    intro c hc
    rcases slugify_chars t c hc with ⟨h1, h2⟩
    simp [h1, h2]
  · rfl

/-- C10: sanitizing is idempotent — the output of `slugify_filename` contains
no reserved character and no whitespace, so a second pass changes nothing. -/
theorem slugify_idempotent (t : String) :
    slugify_filename (slugify_filename t) = slugify_filename t := by
  have key := slugify_chars t
  show (⟨collapseWS ((slugify_filename t).data.filter (fun c => !isReserved c))⟩ : String)
      = slugify_filename t
  rw [List.filter_eq_self.mpr (fun c hc => by simp [(key c hc).1])]
  unfold collapseWS
  rw [collapseWSAux_eq_self _ (fun c hc => (key c hc).2) false]

/-! ### Chapter directory extraction -/

/-- C7: on an index page where every chapter element has a valid — present
and non-empty — link target, the extractor returns one entry per element, in
document order, taking the nested span text (or the sentinel `"未知章節"`
when no span is present) as title and resolving the link target against the
fixed origin; an element whose link target is absent or empty (falsy under
`if href:`) is skipped; an index-page fetch failure yields the empty list. -/
theorem fetch_chapters_spec :
    (∀ elems : List ChapterElem, (∀ ch ∈ elems, ch.href.getD "" ≠ "") →
      fetch_chapter_links_and_titles (some elems) =
        elems.map (fun ch => (ch.spanText.getD "未知章節", origin ++ ch.href.getD ""))) ∧
    (∀ (elems : List ChapterElem) (ch : ChapterElem),
      ch.href = none ∨ ch.href = some "" →
      fetch_chapter_links_and_titles (some (ch :: elems)) =
        fetch_chapter_links_and_titles (some elems)) ∧
    fetch_chapter_links_and_titles none = [] := by
  refine ⟨?_, ?_, rfl⟩
  · intro elems h
    induction elems with
    | nil => rfl
    | cons a rest ih =>
      have ha := h a (List.mem_cons_self _ _)
      cases hv : a.href with
      | none => rw [hv] at ha; exact absurd rfl ha
      | some v =>
        rw [hv] at ha
        simp only [Option.getD_some] at ha
        simp only [fetch_chapter_links_and_titles, List.map_cons, List.filterMap_cons,
          hv, if_neg ha] at ih ⊢
        rw [ih (fun c hc => h c (List.mem_cons_of_mem _ hc))]
        simp
  · intro elems ch h
    rcases h with h | h <;>
      simp [fetch_chapter_links_and_titles, List.filterMap_cons, h]

/-- Witness for C7 at a concrete index page: two chapter elements with valid
(non-empty) link targets, the second lacking its span. -/
theorem fetch_chapters_spec_witness :
    fetch_chapter_links_and_titles
        (some [⟨some "/c1", some "第一章"⟩, ⟨some "/c2", none⟩]) =
      [("第一章", "https://www.baozimh.com/c1"), ("未知章節", "https://www.baozimh.com/c2")] :=
  fetch_chapters_spec.1 [⟨some "/c1", some "第一章"⟩, ⟨some "/c2", none⟩] (by decide)

/-! ### EPUB content document -/

/-- Left-fold accumulation of the tag pieces equals in-order concatenation. -/
theorem buildContent_foldr (v : String) :
    ∀ (paths : List String) (init : String),
      paths.foldl (fun acc p => acc ++ (imgTag (basename p) v ++ "<br>")) init =
        init ++ paths.foldr (fun p acc => (imgTag (basename p) v ++ "<br>") ++ acc) "" := by
  intro paths
  induction paths with
  | nil => intro init; simp
  | cons p rest ih =>
    intro init
    simp only [List.foldl_cons, List.foldr_cons, ih, String.append_assoc]

/-- One embedded resource per readable path. -/
theorem embeddedItems_length (rb : String → Option Nat) :
    ∀ paths : List String,
      (embeddedItems rb paths).length = paths.countP (fun p => (rb p).isSome) := by
  intro paths
  induction paths with
  | nil => rfl
  | cons p rest ih =>
    cases hp : rb p with
    | none =>
      simp only [embeddedItems, List.filterMap_cons, hp, List.countP_cons] at ih ⊢
      simp [ih, hp]
    | some b =>
      simp only [embeddedItems, List.filterMap_cons, hp, Option.map_some',
        List.countP_cons, List.length_cons] at ih ⊢
      simp [ih, hp]

/-- C9: the content document is the in-order concatenation of exactly one
`<img>` tag (referencing the path's base name) plus a `<br>` per input path,
independent of readability, while only the readable paths become embedded
resources — so the document may reference images absent from the archive. -/
theorem epub_content_references_every_path (rb : String → Option Nat) (v : String)
    (paths : List String) :
    (create_volume_epub rb v paths).1 =
      paths.foldr (fun p acc => (imgTag (basename p) v ++ "<br>") ++ acc) "" ∧
    (create_volume_epub rb v paths).2.length =
      paths.countP (fun p => (rb p).isSome) := by
  constructor
  · show buildContent v paths = _
    rw [buildContent, buildContent_foldr v paths "", String.empty_append]
  · exact embeddedItems_length rb paths

/-! ### The image download loop -/

/-- Unfolding one iteration of the page-follow loop. -/
theorem downloadImagesLoop_succ (site : String → Option Page) (f w : String → Bool)
    (d : String) (fuel : Nat) (url : String) (acc : List (Nat × String)) :
    downloadImagesLoop site f w d (fuel + 1) (some url) acc =
      match site url with
      | none => .ok acc
      | some page =>
        match downloadImgList f w d (extractImageUrls page.imgs) (acc.length + 1) with
        | .error e => .error e
        | .ok ws =>
          downloadImagesLoop site f w d fuel
            (page.nextHref.map (fun h => origin ++ h)) (acc ++ ws) := rfl

/-- The loop with no current url returns the accumulator. -/
theorem downloadImagesLoop_none (site : String → Option Page) (f w : String → Bool)
    (d : String) (fuel : Nat) (acc : List (Nat × String)) :
    downloadImagesLoop site f w d fuel none acc = .ok acc := by
  cases fuel <;> rfl

/-- When every image fetch and write succeeds, one page's inner loop writes
one file per url, with consecutive indices starting at the given one. -/
theorem downloadImgList_all_success (f w : String → Bool) (d : String)
    (hf : ∀ u, f u = true) (hw : ∀ p, w p = true) :
    ∀ (urls : List String) (idx : Nat),
      downloadImgList f w d urls idx = .ok ((List.range' idx urls.length).zip urls) := by
  intro urls
  induction urls with
  | nil => intro idx; rfl
  | cons u us ih =>
    intro idx
    simp only [downloadImgList, hf u, hw, if_true, ih (idx + 1), List.length_cons,
      List.range'_succ, List.zip_cons_cons]

/-- When every image fetch and write succeeds, the accumulator invariant
"indices are exactly `1, 2, ..., length`" is preserved by the whole loop. -/
theorem downloadImagesLoop_contiguous (site : String → Option Page) (f w : String → Bool)
    (d : String) (hf : ∀ u, f u = true) (hw : ∀ p, w p = true) :
    ∀ (fuel : Nat) (cur : Option String) (acc : List (Nat × String)),
      acc.map Prod.fst = List.range' 1 acc.length →
      ∃ ws, downloadImagesLoop site f w d fuel cur acc = .ok ws ∧
        ws.map Prod.fst = List.range' 1 ws.length := by
  intro fuel
  induction fuel with
  | zero =>
    intro cur acc hacc
    cases cur with
    | none => exact ⟨acc, rfl, hacc⟩
    | some url => exact ⟨acc, rfl, hacc⟩
  | succ n ih =>
    intro cur acc hacc
    cases cur with
    | none => exact ⟨acc, rfl, hacc⟩
    | some url =>
      cases hsite : site url with
      | none =>
        rw [downloadImagesLoop_succ]
        simp only [hsite]
        exact ⟨acc, rfl, hacc⟩
      | some page =>
        rw [downloadImagesLoop_succ]
        simp only [hsite, downloadImgList_all_success f w d hf hw]
        apply ih
        have hlen : ((List.range' (acc.length + 1)
            (extractImageUrls page.imgs).length).zip (extractImageUrls page.imgs)).map
              Prod.fst = List.range' (acc.length + 1) (extractImageUrls page.imgs).length :=
          List.map_fst_zip _ _ (by simp)
        rw [List.map_append, hacc, hlen, List.length_append]
        rw [List.length_zip, List.length_range', Nat.min_self]
        rw [Nat.add_comm acc.length 1, List.range'_append_1, Nat.add_comm]

/-- C2 amended: when every image fetch succeeds, the files written for a
chapter carry contiguous numeric suffixes `001, 002, ...` starting at 1, in
order, across the whole page-follow sequence.  (The unconditional claim is
refuted by `download_numbering_gap_cex`: a failed image fetch skips its
index.) -/
theorem download_numbering_contiguous (site : String → Option Page) (f w : String → Bool)
    (d u : String) (fuel : Nat) (hf : ∀ x, f x = true) (hw : ∀ p, w p = true) :
    ∃ n, download_images site f w d u fuel =
      .ok ((List.range' 1 n).map (imageFilePath d)) := by
  obtain ⟨ws, h1, h2⟩ := downloadImagesLoop_contiguous site f w d hf hw fuel (some u) [] rfl
  refine ⟨ws.length, ?_⟩
  rw [download_images, h1]
  show Except.ok (ws.map fun wr => imageFilePath d wr.1) = _
  rw [← h2, List.map_map]
  rfl

/-- Witness for the amended C2 on a concrete two-page chapter with three
images: the files are exactly `001.jpg`, `002.jpg`, `003.jpg`. -/
theorem download_numbering_contiguous_witness :
    ∃ n, download_images
        (fun u => if u == "p1" then some ⟨[⟨some "a1", none⟩, ⟨some "a2", none⟩], some "/p2"⟩
          else if u == "https://www.baozimh.com/p2" then some ⟨[⟨some "a3", none⟩], none⟩
          else none)
        (fun _ => true) (fun _ => true) "d" "p1" 2 =
      .ok ((List.range' 1 n).map (imageFilePath "d")) :=
  download_numbering_contiguous
    (fun u => if u == "p1" then some ⟨[⟨some "a1", none⟩, ⟨some "a2", none⟩], some "/p2"⟩
      else if u == "https://www.baozimh.com/p2" then some ⟨[⟨some "a3", none⟩], none⟩
      else none)
    (fun _ => true) (fun _ => true) "d" "p1" 2 (fun _ => rfl) (fun _ => rfl)

/-- A single chapter page listing three images, used to exhibit the numbering
gap: the second image's fetch fails. -/
def gapSite : String → Option Page :=
  fun u => if u == "p1" then
    some ⟨[⟨some "u1", none⟩, ⟨some "u2", none⟩, ⟨some "u3", none⟩], none⟩
  else none

/-- Image fetch oracle failing exactly on `"u2"`. -/
def gapFetch : String → Bool := fun u => !(u == "u2")

/-- C2 counterexample: with three images whose second fetch fails, the files
written are `001.jpg` and `003.jpg` — the numeric suffixes are not the
contiguous `001.jpg, 002.jpg` that the claim requires. -/
theorem download_numbering_gap_cex :
    download_images gapSite gapFetch (fun _ => true) "d" "p1" 1 =
      .ok ["d/001.jpg", "d/003.jpg"] ∧
    ¬ ∃ n, download_images gapSite gapFetch (fun _ => true) "d" "p1" 1 =
      .ok ((List.range' 1 n).map (imageFilePath "d")) := by
  constructor
  · rfl
  · rintro ⟨n, hn⟩
    have h : download_images gapSite gapFetch (fun _ => true) "d" "p1" 1 =
        .ok ["d/001.jpg", "d/003.jpg"] := rfl
    rw [h] at hn
    injection hn with hl
    have hlen := congrArg List.length hl
    simp only [List.length_cons, List.length_nil, List.length_map,
      List.length_range'] at hlen
    subst hlen
    exact absurd hl (by decide)

/-- C3: on a single page with five image urls whose third fetch fails, the
downloader returns exactly the four file paths `001.jpg`, `002.jpg`,
`004.jpg`, `005.jpg` — a gap at the failed index — and no error escapes
(the result is `Except.ok`, the `RequestException` being caught and logged). -/
theorem third_fetch_failure_skips_index (site : String → Option Page) (f : String → Bool)
    (d cu u1 u2 u3 u4 u5 : String) (P : Page)
    (hsite : site cu = some P)
    (himgs : extractImageUrls P.imgs = [u1, u2, u3, u4, u5])
    (hnext : P.nextHref = none)
    (h1 : f u1 = true) (h2 : f u2 = true) (h3 : f u3 = false)
    (h4 : f u4 = true) (h5 : f u5 = true) :
    download_images site f (fun _ => true) d cu 1 =
      .ok [imageFilePath d 1, imageFilePath d 2, imageFilePath d 4, imageFilePath d 5] := by
  rw [download_images, downloadImagesLoop_succ]
  simp only [hsite, himgs, hnext, List.length_nil, Nat.zero_add]
  simp only [downloadImgList, h1, h2, h3, h4, h5, if_true, if_false, Bool.false_eq_true]
  simp only [Option.map_none', downloadImagesLoop_none]
  rfl

/-- The concrete chapter page for the C3 witness: five images, no next page. -/
def c3page : Page :=
  ⟨[⟨some "a1", none⟩, ⟨some "a2", none⟩, ⟨some "a3", none⟩,
    ⟨some "a4", none⟩, ⟨some "a5", none⟩], none⟩

/-- Concrete site serving `c3page` at `"c1"`. -/
def c3site : String → Option Page := fun u => if u == "c1" then some c3page else none

/-- Image fetch oracle failing exactly on the third url `"a3"`. -/
def c3fetch : String → Bool := fun u => !(u == "a3")

/-- Witness for C3 at the concrete five-image page. -/
theorem third_fetch_failure_skips_index_witness :
    download_images c3site c3fetch (fun _ => true) "out" "c1" 1 =
      .ok ["out/001.jpg", "out/002.jpg", "out/004.jpg", "out/005.jpg"] :=
  third_fetch_failure_skips_index c3site c3fetch "out" "c1" "a1" "a2" "a3" "a4" "a5"
    c3page rfl rfl rfl rfl rfl rfl rfl rfl

/-- C1: for a chapter whose page-follow sequence is `P1 -> P2 -> (no next)`
and whose image fetches all succeed, the collected images are exactly the
concatenation of `P1`'s images followed by `P2`'s, in document order, nothing
dropped or duplicated; and if instead the second page's fetch fails, the loop
stops and `P1`'s images are returned as the partial result. -/
theorem two_page_collection (site site2 : String → Option Page) (f : String → Bool)
    (d u1 nh : String) (P1 P2 : Page) (n : Nat)
    (hf : ∀ u, f u = true)
    (hs1 : site u1 = some P1) (hn1 : P1.nextHref = some nh)
    (hs2 : site (origin ++ nh) = some P2) (hn2 : P2.nextHref = none)
    (hs1b : site2 u1 = some P1) (hs2b : site2 (origin ++ nh) = none) :
    collected_images site f (fun _ => true) d u1 (n + 2) =
      .ok (extractImageUrls P1.imgs ++ extractImageUrls P2.imgs) ∧
    collected_images site2 f (fun _ => true) d u1 (n + 2) =
      .ok (extractImageUrls P1.imgs) := by
  have hall := downloadImgList_all_success f (fun _ => true) d hf (fun _ => rfl)
  have hsnd : ∀ (s : Nat) (urls : List String),
      ((List.range' s urls.length).zip urls).map Prod.snd = urls :=
    fun s urls => List.map_snd_zip _ _ (by simp)
  constructor
  · rw [collected_images]
    rw [show (n + 2 : Nat) = (n + 1) + 1 from rfl, downloadImagesLoop_succ]
    simp only [hs1, hall, hn1, Option.map_some', List.nil_append]
    rw [downloadImagesLoop_succ]
    simp only [hs2, hall, hn2, Option.map_none', downloadImagesLoop_none]
    simp only [Except.map, List.map_append, hsnd]
  · rw [collected_images]
    rw [show (n + 2 : Nat) = (n + 1) + 1 from rfl, downloadImagesLoop_succ]
    simp only [hs1b, hall, hn1, Option.map_some', List.nil_append]
    rw [downloadImagesLoop_succ]
    simp only [hs2b]
    simp only [Except.map, hsnd]

/-- The first page of the C1 witness chapter: two images, next page `/p2`. -/
def c1page1 : Page := ⟨[⟨some "a1", none⟩, ⟨some "a2", none⟩], some "/p2"⟩

/-- The second page of the C1 witness chapter: one image, no next page. -/
def c1page2 : Page := ⟨[⟨some "b1", none⟩], none⟩

/-- Concrete two-page site for the C1 witness. -/
def c1site : String → Option Page :=
  fun u => if u == "p1" then some c1page1
    else if u == "https://www.baozimh.com/p2" then some c1page2 else none

/-- The same site with the second page's fetch failing. -/
def c1siteBroken : String → Option Page :=
  fun u => if u == "p1" then some c1page1 else none

/-- Witness for C1 on the concrete two-page chapter. -/
theorem two_page_collection_witness :
    collected_images c1site (fun _ => true) (fun _ => true) "d" "p1" 2 =
      .ok ["a1", "a2", "b1"] ∧
    collected_images c1siteBroken (fun _ => true) (fun _ => true) "d" "p1" 2 =
      .ok ["a1", "a2"] :=
  two_page_collection c1site c1siteBroken (fun _ => true) "d" "p1" "/p2"
    c1page1 c1page2 0 (fun _ => rfl) rfl rfl rfl rfl rfl rfl

/-! ### The orchestrator's chapter loop -/

/-- When every file write succeeds, the inner image loop never raises: image
fetch failures are caught and skipped. -/
theorem downloadImgList_ok_of_writes (f w : String → Bool) (d : String)
    (hw : ∀ p, w p = true) :
    ∀ (urls : List String) (idx : Nat),
      ∃ ws, downloadImgList f w d urls idx = .ok ws := by
  intro urls
  induction urls with
  | nil => intro idx; exact ⟨[], rfl⟩
  | cons u us ih =>
    intro idx
    obtain ⟨ws, hws⟩ := ih (idx + 1)
    by_cases hfu : f u = true
    · exact ⟨(idx, u) :: ws, by simp only [downloadImgList, hfu, hw, if_true, hws]⟩
    · refine ⟨ws, ?_⟩
      simp only [downloadImgList, hw, if_true]
      rw [if_neg hfu]
      exact hws

/-- When every file write succeeds, the page-follow loop never raises: page
fetch failures stop it with a partial result. -/
theorem downloadImagesLoop_ok_of_writes (site : String → Option Page)
    (f w : String → Bool) (d : String) (hw : ∀ p, w p = true) :
    ∀ (fuel : Nat) (cur : Option String) (acc : List (Nat × String)),
      ∃ ws, downloadImagesLoop site f w d fuel cur acc = .ok ws := by
  intro fuel
  induction fuel with
  | zero =>
    intro cur acc
    cases cur with
    | none => exact ⟨acc, rfl⟩
    | some url => exact ⟨acc, rfl⟩
  | succ n ih =>
    intro cur acc
    cases cur with
    | none => exact ⟨acc, rfl⟩
    | some url =>
      cases hsite : site url with
      | none =>
        refine ⟨acc, ?_⟩
        rw [downloadImagesLoop_succ]
        simp only [hsite]
      | some page =>
        obtain ⟨ws, hws⟩ := downloadImgList_ok_of_writes f w d hw
          (extractImageUrls page.imgs) (acc.length + 1)
        obtain ⟨ws2, hws2⟩ := ih (page.nextHref.map (fun h => origin ++ h)) (acc ++ ws)
        refine ⟨ws2, ?_⟩
        rw [downloadImagesLoop_succ]
        simp only [hsite, hws]
        exact hws2

/-- C6 amended: as long as every image file write succeeds, no chapter's
fetch failures abort the run — the loop produces one epub per chapter, in
list order, whatever the page and image fetch oracles do.  (The claim's
"no error of any kind propagates" is refuted by
`chapter_failure_aborts_run_cex`: a failed image file write raises an
`OSError` no handler catches.) -/
theorem chapters_all_processed (site : String → Option Page) (f w : String → Bool)
    (fuel : Nat) (o m : String) (hw : ∀ p, w p = true) :
    ∀ chapters : List (String × String),
      process_chapters site f w fuel o m chapters =
        .ok (chapters.map (fun ch => epub_file o m ch.1)) := by
  intro chapters
  induction chapters with
  | nil => rfl
  | cons c rest ih =>
    obtain ⟨title, curl⟩ := c
    obtain ⟨ws, hws⟩ := downloadImagesLoop_ok_of_writes site f w
      (o ++ "/temp_images/" ++ slugify_filename title) hw fuel (some curl) []
    simp only [process_chapters, download_images, hws, Except.map, ih, List.map_cons]

/-- Witness for the amended C6: two chapters, the first page fetch failing,
the second chapter's page present; both chapters still produce their epub. -/
theorem chapters_all_processed_witness :
    process_chapters c1site (fun _ => true) (fun _ => true) 1 "o" "M"
      [("c one", "nowhere"), ("c two", "p1")] =
      .ok ["o/M_c one.epub", "o/M_c two.epub"] :=
  chapters_all_processed c1site (fun _ => true) (fun _ => true) 1 "o" "M"
    (fun _ => rfl) [("c one", "nowhere"), ("c two", "p1")]

/-- Single-page site used for the C6 counterexample. -/
def c6site : String → Option Page :=
  fun u => if u == "p1" then some ⟨[⟨some "i1", none⟩], none⟩ else none

/-- C6 counterexample: with an image file write failing (`OSError`), the
uncaught error propagates out of `download_images` and aborts the chapter
loop — the run ends in an error and the second chapter is never processed,
refuting "no error of any kind propagates out of the orchestrator". -/
theorem chapter_failure_aborts_run_cex :
    process_chapters c6site (fun _ => true) (fun _ => false) 1 "o" "M"
      [("c1", "p1"), ("c2", "p2")] = .error "IOError" ∧
    ¬ ∃ outs, process_chapters c6site (fun _ => true) (fun _ => false) 1 "o" "M"
      [("c1", "p1"), ("c2", "p2")] = .ok outs := by
  refine ⟨rfl, ?_⟩
  rintro ⟨outs, h⟩
  rw [show process_chapters c6site (fun _ => true) (fun _ => false) 1 "o" "M"
    [("c1", "p1"), ("c2", "p2")] = .error "IOError" from rfl] at h
  exact Except.noConfusion h

/-! ### Network call trace -/

/-- Every call a chapter's download loop attempts goes through the shared
session. -/
theorem downloadImagesTrace_viaSession (site : String → Option Page) :
    ∀ (fuel : Nat) (cur : Option String),
      ∀ c ∈ downloadImagesTrace site fuel cur, c.viaSession = true := by
  intro fuel
  induction fuel with
  | zero =>
    intro cur c hc
    cases cur with
    | none => simp [downloadImagesTrace] at hc
    | some url => simp [downloadImagesTrace] at hc
  | succ n ih =>
    intro cur c hc
    cases cur with
    | none => simp [downloadImagesTrace] at hc
    | some url =>
      cases hsite : site url with
      | none =>
        simp only [downloadImagesTrace, hsite, List.mem_cons, List.not_mem_nil,
          or_false] at hc
        subst hc; rfl
      | some page =>
        simp only [downloadImagesTrace, hsite, List.mem_cons, List.mem_append,
          List.mem_map] at hc
        rcases hc with hc | ⟨u, _, hc⟩ | hc
        · subst hc; rfl
        · rw [← hc]
        · exact ih _ c hc

/-- C4 amended: the orchestrator fetches the index page three times — once
each for the title, the author and the chapter list, all session-less — and
only afterwards opens the shared session, through which every remaining
network call goes.  (The claim's "index page fetched exactly once" is
refuted by `index_fetch_count_cex`.) -/
theorem index_fetched_thrice_then_session (index_url : String)
    (doc : Option (List ChapterElem)) (site : String → Option Page) (fuel : Nat) :
    (downloadMangaTrace index_url doc site fuel).take 3 =
      [⟨index_url, false⟩, ⟨index_url, false⟩, ⟨index_url, false⟩] ∧
    ∀ c ∈ (downloadMangaTrace index_url doc site fuel).drop 3, c.viaSession = true := by
  constructor
  · rfl
  · intro c hc
    simp only [downloadMangaTrace, List.drop_succ_cons, List.drop_zero,
      List.mem_flatten, List.mem_map] at hc
    obtain ⟨l, ⟨ch, _, hl⟩, hcl⟩ := hc
    rw [← hl] at hcl
    exact downloadImagesTrace_viaSession site fuel (some ch.2) c hcl

/-- The index page for the C4 counterexample: one chapter at `/c1`. -/
def c4doc : List ChapterElem := [⟨some "/c1", some "第1章"⟩]

/-- The site for the C4 counterexample: the chapter page has one image and no
next page. -/
def c4site : String → Option Page :=
  fun u => if u == "https://www.baozimh.com/c1" then
    some ⟨[⟨some "i1", none⟩], none⟩
  else none

/-- C4 counterexample: on a concrete run the index page is fetched three
times, not exactly once as the claim states. -/
theorem index_fetch_count_cex :
    (downloadMangaTrace "I" (some c4doc) c4site 1).countP (fun c => c.url == "I") = 3 ∧
    (downloadMangaTrace "I" (some c4doc) c4site 1).countP (fun c => c.url == "I") ≠ 1 := by
  constructor <;> decide

/-- Witness for the amended C4 at the same concrete run: the first three
calls are the session-less index fetches, and the chapter-page call found in
the remainder of the trace went through the shared session. -/
theorem index_fetched_thrice_then_session_witness :
    (downloadMangaTrace "I" (some c4doc) c4site 1).take 3 =
      [⟨"I", false⟩, ⟨"I", false⟩, ⟨"I", false⟩] ∧
    NetCall.viaSession ⟨"https://www.baozimh.com/c1", true⟩ = true :=
  ⟨(index_fetched_thrice_then_session "I" (some c4doc) c4site 1).1,
   (index_fetched_thrice_then_session "I" (some c4doc) c4site 1).2
     ⟨"https://www.baozimh.com/c1", true⟩ (by decide)⟩

/-! ### Archive file naming -/

/-- C5 counterexample: the epub for chapter title `"Ch 1: A"` is written as
`o/M_Ch 1: A.epub` — the RAW title, reserved characters and all — not the
sanitized `o/M_Ch_1_A.epub` the claim requires. -/
theorem epub_named_from_raw_title_cex :
    (chapter_paths "o" "M" "Ch 1: A").2 = "o/M_Ch 1: A.epub" ∧
    (chapter_paths "o" "M" "Ch 1: A").2 ≠
      "o" ++ "/" ++ "M" ++ "_" ++ slugify_filename "Ch 1: A" ++ ".epub" := by
  exact ⟨rfl, by decide⟩

/-- C5 amended: for every chapter, the archive is written to
`outputDir/<mangaTitle>_<chapterTitle>.epub` with the chapter title used
verbatim (unsanitized), overwriting any existing file of that name; the
sanitized title names only the temporary image directory. -/
theorem epub_named_from_raw_title (o m t : String) :
    chapter_paths o m t =
      (o ++ "/temp_images/" ++ slugify_filename t,
       o ++ "/" ++ m ++ "_" ++ t ++ ".epub") ∧
    (chapter_paths o m t).2 = epub_file o m t :=
  ⟨rfl, rfl⟩

end WebToEpubComics
